import Mathlib

/-!
Verification of the aseprite-factory job-orchestration layer.

The definitions below are a shallow embedding of `run.py` and
`sd_pipeline.py`.  JSON values are modelled by `JValue`; Python dicts
become association lists; functions that raise `JobError` return
`Except String`.  External interactions (the filesystem, the `wslpath`
utility, the Aseprite subprocess, the SD generation service) are
abstracted as explicit parameters, and the externally visible writes
performed by a run are collected as an `Effect` trace.
-/

/-- JSON values as decoded by `json.load`. -/
inductive JValue where
  | null
  | bool (b : Bool)
  | num (n : Int)
  | str (s : String)
  | arr (xs : List JValue)
  | obj (fields : List (String × JValue))

/-- `dict.get`: look up a key in an association list (first match). -/
def jget (fields : List (String × JValue)) (k : String) : Option JValue :=
  (fields.find? (fun kv => kv.1 == k)).map (fun kv => kv.2)

/-- Key lookup inside a `JValue.obj`; `none` for non-objects. -/
def jlook : JValue → String → Option JValue
  | .obj fields, k => jget fields k
  | _, _ => none

/-- Characters matched by the character class of `JOB_ID_PATTERN`,
`[A-Za-z0-9_-]` from `run.py` line 17. -/
def isJobIdChar (c : Char) : Bool :=
  decide (('A' ≤ c ∧ c ≤ 'Z') ∨ ('a' ≤ c ∧ c ≤ 'z') ∨ ('0' ≤ c ∧ c ≤ '9') ∨ c = '_' ∨ c = '-')

/-- Python `re.match` of the anchored pattern `^[A-Za-z0-9_-]+$`.
In Python `$` also matches just before a newline at the very end of the
string, so a string consisting of matching characters followed by one
final newline is accepted as well. -/
def reMatchJobId (l : List Char) : Bool :=
  (decide (l ≠ []) && l.all isJobIdChar) ||
  (decide (l.getLast? = some '\n') && decide (l.dropLast ≠ []) && l.dropLast.all isJobIdChar)

/-- Split a character list at every '/', mirroring Python `str.split("/")`
(the result is never empty; an empty input gives one empty piece). -/
def splitSlash : List Char → List (List Char)
  | [] => [[]]
  | c :: rest =>
      if c = '/' then [] :: splitSlash rest
      else
        match splitSlash rest with
        | [] => [[c]]
        | p :: ps => (c :: p) :: ps

/-- The components of `pathlib.PurePosixPath` (excluding any root):
split on '/' and drop empty pieces and single dots. -/
def posixComponents (s : String) : List String :=
  ((splitSlash s.toList).map String.mk).filter (fun c => !(c == "" || c == "."))

/-- `pathlib.Path(s).name` on a POSIX host: the last retained component,
or the empty string when there is none. -/
def posixName (s : String) : String :=
  ((posixComponents s).getLast?).getD ""

/-- `SUPPORTED_TASKS` from `run.py` line 16. -/
def SUPPORTED_TASKS : List String := ["sprite_placeholder", "tileset_placeholder"]

/-- `mkJob jid task ob` is the JSON object
`{"job_id": jid, "task": task, "output_basename": ob}`. -/
def mkJob (jid task ob : String) : JValue :=
  .obj [("job_id", .str jid), ("task", .str task), ("output_basename", .str ob)]

/-- `validate_job` from `run.py` lines 81-107: checks `job_id` (string,
non-empty, matching the anchored pattern), `task` (string drawn from
`SUPPORTED_TASKS`), `output_basename` (string, non-empty, equal to its
own `Path(...).name`), and returns the canonical four-key record with
`params` defaulting to the empty object.  Error strings follow the
source (the Python rendering of the sorted task set is abbreviated
without its inner quotes). -/
def validate_job (j : JValue) : Except String (List (String × JValue)) :=
  match j with
  | .obj fields =>
      match jget fields "job_id" with
      | some (.str job_id) =>
          if job_id = "" then .error "job_id is required and must be a string."
          else if reMatchJobId job_id.toList then
            match jget fields "task" with
            | some (.str task) =>
                if task ∈ SUPPORTED_TASKS then
                  match jget fields "output_basename" with
                  | some (.str output_basename) =>
                      if output_basename = "" then
                        .error "output_basename is required and must be a string."
                      else if posixName output_basename = output_basename then
                        .ok [("job_id", .str job_id), ("task", .str task),
                             ("output_basename", .str output_basename),
                             ("params", (jget fields "params").getD (.obj []))]
                      else .error "output_basename must be a file basename without directories."
                  | _ => .error "output_basename is required and must be a string."
                else .error "task must be one of [sprite_placeholder, tileset_placeholder]."
            | _ => .error "task must be one of [sprite_placeholder, tileset_placeholder]."
          else .error "job_id must contain only letters, numbers, underscore, or dash."
      | _ => .error "job_id is required and must be a string."
  | _ => .error "Job spec must be a JSON object."

/-- The abstract run environment: the repository root (`REPO_ROOT`), the
`ASEPRITE_EXE` environment variable, the filesystem existence test
(`Path(...).exists()`), the two directions of the `wslpath` utility
(which fails with a `JobError` message when unavailable or rejecting the
path), and the external editor subprocess, mapping a command line to its
captured stdout, stderr and exit code. -/
structure Env where
  repoRoot : String
  aseprite_env : Option String
  fsExists : String → Bool
  wslpathToWin : String → Except String String
  wslpathToWsl : String → Except String String
  editor : List String → String × String × Int

/-- Externally visible writes performed by one `run.py` run, in order:
creating the artifact directory, writing `meta.json`, invoking the
editor subprocess, and writing `logs.txt`. -/
inductive Effect where
  | mkdirArtifacts (dir : String)
  | writeMeta (dir : String) (payload : JValue)
  | runProcess (cmd : List String)
  | writeLog (path : String) (contents : String)

/-- The two command variants of `run.py` (one class per supported task). -/
inductive Command where
  | sprite_placeholder
  | tileset_placeholder
deriving DecidableEq

/-- `str()` of a field of the validated job record (only string values
occur after validation). -/
def strField (job : List (String × JValue)) (k : String) : String :=
  match jget job k with
  | some (.str s) => s
  | _ => ""

/-- Python `str()` as used in the `Unsupported task:` message for a
non-string task value (container rendering abbreviated; this arm is
unreachable from validated jobs). -/
def pyStr : JValue → String
  | .null => "None"
  | .bool true => "True"
  | .bool false => "False"
  | .num n => toString n
  | .str s => s
  | .arr _ => "[...]"
  | .obj _ => "{...}"

/-- `build_command` from `run.py` lines 164-170: the if-chain on
`context.job["task"]`. -/
def build_command (job : List (String × JValue)) : Except String Command :=
  match jget job "task" with
  | some (JValue.str t) =>
      if t = "sprite_placeholder" then .ok Command.sprite_placeholder
      else if t = "tileset_placeholder" then .ok Command.tileset_placeholder
      else .error ("Unsupported task: " ++ t)
  | some v => .error ("Unsupported task: " ++ pyStr v)
  | none => .error "KeyError: task"

/-- `meta_payload` of the two command classes (`run.py` lines 139-161):
both include the full job record under `"job"`. -/
def meta_payload (c : Command) (job : List (String × JValue)) : JValue :=
  match c with
  | .sprite_placeholder =>
      .obj [("job", .obj job), ("frame_count", .num 5),
            ("tags", .obj [("idle", .obj [("from", .num 1), ("to", .num 1)]),
                           ("walk", .obj [("from", .num 2), ("to", .num 5)])])]
  | .tileset_placeholder =>
      .obj [("job", .obj job),
            ("tileset_size", .arr [.num 128, .num 128]),
            ("tile_size", .arr [.num 16, .num 16]),
            ("tiles", .arr [.str "grass", .str "stone", .str "wall", .str "dirt"])]

/-- `lua_script` of the two command classes: a fixed script under
`LUA_DIR`. -/
def lua_script (env : Env) : Command → String
  | .sprite_placeholder => env.repoRoot ++ "/lua/sprite_placeholder.lua"
  | .tileset_placeholder => env.repoRoot ++ "/lua/tileset_placeholder.lua"

/-- `BaseCommand.script_params` (`run.py` lines 124-128): the artifacts
directory translated to the Windows convention plus the output basename. -/
def script_params (env : Env) (job : List (String × JValue)) (artifactsDir : String) :
    Except String (List (String × String)) :=
  match env.wslpathToWin artifactsDir with
  | .error e => .error e
  | .ok winDir => .ok [("output_dir", winDir), ("output_basename", strField job "output_basename")]

/-- The well-known install locations probed when `ASEPRITE_EXE` is not
set (`run.py` lines 63-66). -/
def ASEPRITE_CANDIDATES : List String :=
  ["C:\\Program Files\\Aseprite\\aseprite.exe",
   "C:\\Program Files (x86)\\Aseprite\\aseprite.exe"]

/-- The candidate loop of `find_aseprite_executable` (`run.py` lines
67-78): convert each candidate, skip it when `wslpath` fails, return the
first whose converted form exists, and otherwise fail with the
discovery error. -/
def probeCandidates (env : Env) : List String → Except String (String × String)
  | [] => .error ("Aseprite executable not found. Set ASEPRITE_EXE to the Windows path " ++
      "(e.g. C:\\Program Files\\Aseprite\\aseprite.exe) or a WSL path.")
  | c :: rest =>
      match env.wslpathToWsl c with
      | .error _ => probeCandidates env rest
      | .ok u => if env.fsExists u then .ok (u, c) else probeCandidates env rest

/-- Python `str.startswith("/")`: does the string begin with a slash? -/
def startsWithSlash (s : String) : Bool :=
  match s.toList with
  | [] => false
  | c :: _ => c == '/'

/-- `find_aseprite_executable` from `run.py` lines 48-78, returning the
(WSL form, Windows form) pair. -/
def find_aseprite_executable (env : Env) : Except String (String × String) :=
  match env.aseprite_env with
  | some p =>
      if startsWithSlash p then
        if env.fsExists p then
          match env.wslpathToWin p with
          | .error e => .error e
          | .ok w => .ok (p, w)
        else .error ("ASEPRITE_EXE not found at " ++ p ++ ".")
      else
        match env.wslpathToWsl p with
        | .error e => .error e
        | .ok u =>
            if env.fsExists u then .ok (u, p)
            else .error ("ASEPRITE_EXE not found at " ++ p ++ ".")
  | none => probeCandidates env ASEPRITE_CANDIDATES

/-- The command line built by `run_aseprite` (`run.py` lines 183-185). -/
def aseCmd (exe scriptWin : String) (params : List (String × String)) : List String :=
  [exe, "-b", "--script", scriptWin] ++
    params.flatMap (fun kv => ["--script-param", kv.1 ++ "=" ++ kv.2])

/-- The `log_contents` list of `run_aseprite` (`run.py` lines 194-202). -/
def log_contents (cmd : List String) (out err : String) : List String :=
  ["Command:", String.intercalate " " cmd, "", "--- stdout ---", out, "--- stderr ---", err]

/-- `run_aseprite` from `run.py` lines 180-204: translate the script
path, run the editor, write the log, and return the exit code
unmodified. -/
def run_aseprite (env : Env) (exe script : String) (params : List (String × String))
    (logPath : String) : Except String (Int × List Effect) :=
  match env.wslpathToWin script with
  | .error e => .error e
  | .ok w =>
      let cmd := aseCmd exe w params
      let r := env.editor cmd
      .ok (r.2.2, [Effect.runProcess cmd,
                   Effect.writeLog logPath (String.intercalate "\n" (log_contents cmd r.1 r.2.1))])

/-- `main` from `run.py` lines 207-236 (after the job spec has been read
and decoded): validation, artifact directory creation, command dispatch,
`meta.json` write, executable discovery, editor invocation with log
capture, and the exit-code check.  Returns the outcome together with the
ordered trace of externally visible writes. -/
def main_run (env : Env) (jobData : JValue) : Except String Int × List Effect :=
  match validate_job jobData with
  | .error e => (.error e, [])
  | .ok job =>
      let artifactsDir := env.repoRoot ++ "/artifacts/" ++ strField job "job_id"
      match build_command job with
      | .error e => (.error e, [Effect.mkdirArtifacts artifactsDir])
      | .ok cmd =>
          let metaEff := Effect.writeMeta artifactsDir (meta_payload cmd job)
          match find_aseprite_executable env with
          | .error e => (.error e, [Effect.mkdirArtifacts artifactsDir, metaEff])
          | .ok exePair =>
              let logPath := artifactsDir ++ "/logs.txt"
              match script_params env job artifactsDir with
              | .error e => (.error e, [Effect.mkdirArtifacts artifactsDir, metaEff])
              | .ok ps =>
                  match run_aseprite env exePair.1 (lua_script env cmd) ps logPath with
                  | .error e => (.error e, [Effect.mkdirArtifacts artifactsDir, metaEff])
                  | .ok res =>
                      let trace := [Effect.mkdirArtifacts artifactsDir, metaEff] ++ res.2
                      if res.1 ≠ 0 then
                        (.error ("Aseprite exited with code " ++ toString res.1 ++
                          ". See logs.txt for details."), trace)
                      else (.ok 0, trace)

/-- `ARTIFACTS_DIR` of `sd_pipeline.py` line 22. -/
def PIPELINE_ARTIFACTS_DIR : String := "/mnt/c/Users/hound/Pictures/Aseprite Factory"

/-- `TEMP_DIR` of `sd_pipeline.py` line 23. -/
def PIPELINE_TEMP_DIR : String := PIPELINE_ARTIFACTS_DIR ++ "/_sd_temp"

/-- A generation-service stub that always returns exactly one image and
the realized seed (the success case of `generate_scene`). -/
structure GenStub where
  image : List Nat
  seed : Int

/-- `run_factory_job` from `sd_pipeline.py` lines 92-115: write the spec
to a temp file, run `run.py` as a subprocess (exit code 0 on success, 1
on a `JobError`), fail when the code is non-zero, and otherwise return
`ARTIFACTS_DIR / job_id`. -/
def run_factory_job (env : Env) (jobSpec : JValue) (jobId : String) : Except String String :=
  let outcome := main_run env jobSpec
  let code : Int := match outcome.fst with | .ok c => c | .error _ => 1
  if code ≠ 0 then .error ("Factory job failed with code " ++ toString code)
  else .ok (PIPELINE_ARTIFACTS_DIR ++ "/" ++ jobId)

/-- The job spec synthesized by `pipeline_tileset` (`sd_pipeline.py`
lines 154-165): note the task identifier `slice_tileset`. -/
def tileset_job_spec (jobId tempImage : String) (tileSize paletteSize : Int) : JValue :=
  .obj [("job_id", .str jobId),
        ("task", .str "slice_tileset"),
        ("output_basename", .str "tileset"),
        ("params", .obj [("input_file", .str tempImage),
                         ("tile_width", .num tileSize),
                         ("tile_height", .num tileSize),
                         ("palette_size", .num paletteSize),
                         ("remove_dupes", .bool true)])]

/-- What a successful tile flow would deliver: the artifact directory,
the files the pipeline itself adds to it, and the seed recorded in
`generation_info.json`. -/
structure PipelineOutput where
  artifactsDir : String
  extraFiles : List String
  genInfoSeed : Int

/-- `pipeline_tileset` from `sd_pipeline.py` lines 118-186 with the
generation service replaced by `stub`: generate the scene (the stub
always succeeds with one image and a seed), save it to the temp
location, run the factory job on the synthesized spec, then copy
`source.png` and write `generation_info.json` whose `seed` field is the
stub's reported seed. -/
def pipeline_tileset (stub : GenStub) (env : Env) (_prompt jobId : String)
    (_width _height tileSize paletteSize _seed : Int) : Except String PipelineOutput :=
  let tempImage := PIPELINE_TEMP_DIR ++ "/" ++ jobId ++ "_source.png"
  match run_factory_job env (tileset_job_spec jobId tempImage tileSize paletteSize) jobId with
  | .error e => .error e
  | .ok dir => .ok { artifactsDir := dir,
                     extraFiles := ["source.png", "generation_info.json"],
                     genInfoSeed := stub.seed }

/-- A fully concrete environment used to instantiate theorems with
hypotheses: no override, an empty filesystem, identity path translation,
and an editor that exits 0. -/
def testEnv : Env :=
  { repoRoot := "/repo", aseprite_env := none, fsExists := fun _ => false,
    wslpathToWin := fun p => Except.ok p, wslpathToWsl := fun p => Except.ok p,
    editor := fun _ => ("", "", 0) }

/-- A job spec whose `task` is the unsupported value `unknown_task`. -/
def c4fields : List (String × JValue) :=
  [("job_id", JValue.str "abc"), ("task", JValue.str "unknown_task"),
   ("output_basename", JValue.str "x")]

/-- The job spec of the C6 scenario. -/
def c6job : JValue := mkJob "abc-1" "sprite_placeholder" "sprite"

/-- The canonical record `validate_job` produces for `c6job`. -/
def c6validated : List (String × JValue) :=
  [("job_id", JValue.str "abc-1"), ("task", JValue.str "sprite_placeholder"),
   ("output_basename", JValue.str "sprite"), ("params", JValue.obj [])]

/-- A job spec with an extra key and a non-mapping `params` value. -/
def c10fields : List (String × JValue) :=
  [("job_id", JValue.str "p1"), ("task", JValue.str "tileset_placeholder"),
   ("output_basename", JValue.str "tiles"), ("params", JValue.str "not a mapping"),
   ("extra", JValue.num 7)]

/-- Environment for the exit-code-2 scenario: a WSL override that
exists, prefix-style Windows translation, and an editor stub exiting
with code 2. -/
def c5env : Env :=
  { repoRoot := "/repo", aseprite_env := some "/usr/bin/aseprite",
    fsExists := fun s => s == "/usr/bin/aseprite",
    wslpathToWin := fun p => Except.ok ("C:" ++ p),
    wslpathToWsl := fun p => Except.ok p,
    editor := fun _ => ("boom", "fail", 2) }

/-- The job used in the exit-code-2 scenario. -/
def c5job : JValue := mkJob "j5" "sprite_placeholder" "out"

/-- The command line the exit-code-2 scenario invokes. -/
def c5cmd : List String :=
  aseCmd "/usr/bin/aseprite" "C:/repo/lua/sprite_placeholder.lua"
    [("output_dir", "C:/repo/artifacts/j5"), ("output_basename", "out")]

/-- Environment for a full successful run: WSL override `/a` exists,
identity translations, editor exits 0. -/
def c8env : Env :=
  { repoRoot := "/repo", aseprite_env := some "/a",
    fsExists := fun s => s == "/a",
    wslpathToWin := fun p => Except.ok p,
    wslpathToWsl := fun p => Except.ok p,
    editor := fun _ => ("", "", 0) }

/-- The job of the C8 run. -/
def c8job : JValue := mkJob "j8" "tileset_placeholder" "tiles"

/-- The effect trace of the C8 run. -/
def c8trace : List Effect := (main_run c8env c8job).snd

/-- The ordering C8 asserts of a run's trace: a `meta.json` write occurs
only after the editor invocation. -/
def metaOnlyAfterProcess (t : List Effect) : Prop :=
  ∀ i j d p c, t.get? i = some (Effect.writeMeta d p) →
    t.get? j = some (Effect.runProcess c) → j < i

/-- Stage of each effect: 0 mkdir, 1 meta.json, 2 editor invocation,
3 log write. -/
def stageTag : Effect → Nat
  | .mkdirArtifacts _ => 0
  | .writeMeta _ _ => 1
  | .runProcess _ => 2
  | .writeLog _ _ => 3

/-- ExecutableLocator as C9 words it (comparison definition following
the claim's text): the override is interpreted by its leading separator
as a path in either convention, translated to the other convention, and
THE TRANSLATED RESULT is existence-checked, with a hard error naming the
configured path on failure; branches (2) and (3) as in the code. -/
def find_aseprite_claimed (env : Env) : Except String (String × String) :=
  match env.aseprite_env with
  | some p =>
      match (if startsWithSlash p then env.wslpathToWin p else env.wslpathToWsl p) with
      | .error e => .error e
      | .ok q =>
          if env.fsExists q then
            if startsWithSlash p then .ok (p, q) else .ok (q, p)
          else .error ("ASEPRITE_EXE not found at " ++ p ++ ".")
  | none => probeCandidates env ASEPRITE_CANDIDATES

/-- An environment exhibiting the divergence: the WSL-form override
`/opt/aseprite` exists on the filesystem, while its Windows translation
`C:/opt/aseprite` does not (a Windows-form string never names an
existing WSL path). -/
def c9env : Env :=
  { repoRoot := "/repo", aseprite_env := some "/opt/aseprite",
    fsExists := fun s => s == "/opt/aseprite",
    wslpathToWin := fun p => Except.ok ("C:" ++ p),
    wslpathToWsl := fun p => Except.ok p,
    editor := fun _ => ("", "", 0) }

/-- The override's WSL form under the amended reading: the override
itself when it leads with the WSL separator, otherwise the translated
result. -/
def overrideWslForm (env : Env) (p : String) : Except String String :=
  if startsWithSlash p then Except.ok p else env.wslpathToWsl p

/-- ExecutableLocator as amended: (1) the override is interpreted by its
leading separator; its WSL-convention form (the override itself for a
WSL-style override, otherwise the translated result) is
existence-checked, failing with a hard error naming the configured path,
and the pair is completed by translating to the other convention;
(2) each well-known location is probed for existence after conversion,
the first existing one returned; (3) otherwise a discovery error
instructs the operator to set the override. -/
def find_aseprite_amended (env : Env) : Except String (String × String) :=
  match env.aseprite_env with
  | some p =>
      match overrideWslForm env p with
      | .error e => .error e
      | .ok u =>
          if env.fsExists u then
            if startsWithSlash p then (env.wslpathToWin p).map (fun w => (p, w))
            else .ok (u, p)
          else .error ("ASEPRITE_EXE not found at " ++ p ++ ".")
  | none => probeCandidates env ASEPRITE_CANDIDATES

theorem splitSlash_ne_nil (l : List Char) : splitSlash l ≠ [] := by
  cases l with
  | nil => simp [splitSlash]
  | cons c rest =>
      simp only [splitSlash]
      split
      · simp
      · split <;> simp

theorem splitSlash_no_slash (l : List Char) : ∀ p ∈ splitSlash l, '/' ∉ p := by
  induction l with
  | nil =>
      intro p hp
      simp [splitSlash] at hp
      simp [hp]
  | cons c rest ih =>
      intro p hp
      simp only [splitSlash] at hp
      by_cases hc : c = '/'
      · rw [if_pos hc] at hp
        rcases List.mem_cons.mp hp with h | h
        · simp [h]
        · exact ih p h
      · rw [if_neg hc] at hp
        rcases hrest : splitSlash rest with _ | ⟨q, qs⟩
        · exact absurd hrest (splitSlash_ne_nil rest)
        · rw [hrest] at hp
          rcases List.mem_cons.mp hp with h | h
          · subst h
            intro hmem
            rcases List.mem_cons.mp hmem with h2 | h2
            · exact hc h2.symm
            · exact ih q (hrest ▸ List.mem_cons_self q qs) h2
          · exact ih p (hrest ▸ List.mem_cons_of_mem q h)

/-- A job whose `task` field is a string outside `SUPPORTED_TASKS` never
passes `validate_job`. -/
theorem validate_job_err_of_bad_task (fields : List (String × JValue)) (t : String)
    (ht : jget fields "task" = some (JValue.str t)) (hn : t ∉ SUPPORTED_TASKS) :
    ∃ e, validate_job (JValue.obj fields) = Except.error e := by
  unfold validate_job
  dsimp only
  cases hj : jget fields "job_id" with
  | none => exact ⟨_, rfl⟩
  | some v =>
      cases v with
      | str job_id =>
          dsimp only
          by_cases h1 : job_id = ""
          · rw [if_pos h1]; exact ⟨_, rfl⟩
          · rw [if_neg h1]
            by_cases h2 : reMatchJobId job_id.toList = true
            · rw [if_pos h2, ht]
              dsimp only
              rw [if_neg hn]
              exact ⟨_, rfl⟩
            · rw [if_neg h2]; exact ⟨_, rfl⟩
      | null => exact ⟨_, rfl⟩
      | bool b => exact ⟨_, rfl⟩
      | num n => exact ⟨_, rfl⟩
      | arr xs => exact ⟨_, rfl⟩
      | obj fs => exact ⟨_, rfl⟩

/-- C1: the spec promises that, for a generation-service stub returning
one image and a seed, the tile flow of `pipeline_tileset` terminates
successfully and yields `meta.json`, `logs.txt`, `source.png` and
`generation_info.json` with the stub's seed.  In the code this can never
happen: `pipeline_tileset` dispatches the task `slice_tileset`, which
`run.py`'s `validate_job` rejects (`SUPPORTED_TASKS` only holds
`sprite_placeholder` and `tileset_placeholder`), so `run.py` exits with
code 1 and `run_factory_job` raises before any pipeline artifact is
written — for every stub, environment and parameter choice. -/
theorem c1_pipeline_tileset_task_rejected (stub : GenStub) (env : Env) (prompt jobId : String)
    (width height tileSize paletteSize seed : Int) :
    pipeline_tileset stub env prompt jobId width height tileSize paletteSize seed =
      .error "Factory job failed with code 1" := by
  obtain ⟨e, he⟩ := validate_job_err_of_bad_task
    [("job_id", .str jobId), ("task", .str "slice_tileset"), ("output_basename", .str "tileset"),
     ("params", .obj [("input_file", .str (PIPELINE_TEMP_DIR ++ "/" ++ jobId ++ "_source.png")),
                      ("tile_width", .num tileSize), ("tile_height", .num tileSize),
                      ("palette_size", .num paletteSize), ("remove_dupes", .bool true)])]
    "slice_tileset" rfl (by decide)
  have he2 : validate_job (tileset_job_spec jobId
      (PIPELINE_TEMP_DIR ++ "/" ++ jobId ++ "_source.png") tileSize paletteSize) =
      Except.error e := he
  simp only [pipeline_tileset, run_factory_job, main_run, he2]
  rfl

/-- C2: the spec says every string containing a character outside
`[A-Za-z0-9_-]` is rejected as `job_id`.  The code accepts `"abc\n"`:
Python's `$` also matches just before a trailing newline, so
`JOB_ID_PATTERN.match("abc\n")` succeeds even though `'\n'` is outside
the character class, contradicting the validator's own error message
(and the directory-name-safety intent). -/
theorem c2_trailing_newline_accepted :
    ("abc\n".toList.all isJobIdChar = false) ∧
    validate_job (mkJob "abc\n" "sprite_placeholder" "out") =
      .ok [("job_id", JValue.str "abc\n"), ("task", JValue.str "sprite_placeholder"),
           ("output_basename", JValue.str "out"), ("params", JValue.obj [])] :=
  ⟨rfl, rfl⟩

/-- `posixName s` is either empty or built from one of the
slash-separated pieces of `s`. -/
theorem posixName_mem_or_empty (s : String) :
    posixName s = "" ∨ ∃ p, p ∈ splitSlash s.toList ∧ posixName s = String.mk p := by
  unfold posixName
  cases hl : (posixComponents s).getLast? with
  | none => exact Or.inl rfl
  | some a =>
      refine Or.inr ?_
      have hopt : a ∈ (posixComponents s).getLast? := Option.mem_def.mpr hl
      obtain ⟨hne, heq⟩ := List.mem_getLast?_eq_getLast hopt
      have hmem : a ∈ posixComponents s := by
        rw [heq]; exact List.getLast_mem hne
      have hmapmem : a ∈ (splitSlash s.toList).map String.mk := (List.mem_filter.mp hmem).1
      obtain ⟨p, hp, hpa⟩ := List.mem_map.mp hmapmem
      exact ⟨p, hp, hpa.symm⟩

/-- `Path(s).name` never equals `s` when `s` contains a slash. -/
theorem posixName_ne_of_slash (s : String) (h : '/' ∈ s.toList) : posixName s ≠ s := by
  intro heq
  rcases posixName_mem_or_empty s with h0 | ⟨p, hp, hpn⟩
  · rw [heq] at h0
    rw [h0] at h
    exact absurd h (by decide)
  · rw [heq] at hpn
    have hlist : s.toList = p := by rw [hpn]; rfl
    rw [hlist] at h
    exact splitSlash_no_slash s.toList p hp h

/-- With valid `job_id` and `task` fixed, `validate_job` reduces to the
`output_basename` checks. -/
theorem validate_job_template (ob : String) :
    validate_job (mkJob "j1" "sprite_placeholder" ob) =
      (if ob = "" then Except.error "output_basename is required and must be a string."
       else if posixName ob = ob then
         Except.ok [("job_id", JValue.str "j1"), ("task", JValue.str "sprite_placeholder"),
                    ("output_basename", JValue.str ob), ("params", JValue.obj [])]
       else Except.error "output_basename must be a file basename without directories.") := rfl

/-- C3: any `output_basename` containing a path separator fails
validation (its `Path(...).name` strips the directory part, so it can
never equal the input), while any bare filename — a string whose only
path component is itself — passes, and the canonical record keeps it
verbatim. -/
theorem c3_output_basename_validation (ob : String) :
    ('/' ∈ ob.toList → (validate_job (mkJob "j1" "sprite_placeholder" ob)).isOk = false) ∧
    (posixComponents ob = [ob] →
      validate_job (mkJob "j1" "sprite_placeholder" ob) =
        Except.ok [("job_id", JValue.str "j1"), ("task", JValue.str "sprite_placeholder"),
                   ("output_basename", JValue.str ob), ("params", JValue.obj [])]) := by
  constructor
  · intro h
    have hne : ob ≠ "" := by
      intro hob
      rw [hob] at h
      exact absurd h (by decide)
    have hname : posixName ob ≠ ob := posixName_ne_of_slash ob h
    rw [validate_job_template, if_neg hne, if_neg hname]
    rfl
  · intro hcomp
    have hne : ob ≠ "" := by
      intro hob
      rw [hob] at hcomp
      exact absurd hcomp (by decide)
    have hname : posixName ob = ob := by
      unfold posixName
      rw [hcomp]
      rfl
    rw [validate_job_template, if_neg hne, if_pos hname]

theorem c3_output_basename_validation_witness :
    ((validate_job (mkJob "j1" "sprite_placeholder" "a/b")).isOk = false) ∧
    (validate_job (mkJob "j1" "sprite_placeholder" "out") =
      Except.ok [("job_id", JValue.str "j1"), ("task", JValue.str "sprite_placeholder"),
                 ("output_basename", JValue.str "out"), ("params", JValue.obj [])]) :=
  ⟨(c3_output_basename_validation "a/b").1 (by decide),
   (c3_output_basename_validation "out").2 (by decide)⟩

/-- C6: the job spec `{"job_id":"abc-1","task":"sprite_placeholder",
"output_basename":"sprite"}` dispatches to the sprite-placeholder
command, whose metadata payload has `frame_count` 5 and tags `idle`
(frames 1-1) and `walk` (frames 2-5). -/
theorem c6_sprite_placeholder_metadata :
    validate_job c6job = Except.ok c6validated ∧
    build_command c6validated = Except.ok Command.sprite_placeholder ∧
    jlook (meta_payload Command.sprite_placeholder c6validated) "frame_count" =
      some (JValue.num 5) ∧
    ((jlook (meta_payload Command.sprite_placeholder c6validated) "tags").bind
        (fun t => jlook t "idle")) =
      some (JValue.obj [("from", JValue.num 1), ("to", JValue.num 1)]) ∧
    ((jlook (meta_payload Command.sprite_placeholder c6validated) "tags").bind
        (fun t => jlook t "walk")) =
      some (JValue.obj [("from", JValue.num 2), ("to", JValue.num 5)]) :=
  ⟨rfl, rfl, rfl, rfl, rfl⟩

/-- Shape of every successful validation: the input was an object, the
task is one of the two supported identifiers, and the canonical record
is exactly the four-key list with `params` passed through (defaulting to
the empty object). -/
theorem validate_job_ok_shape (jd : JValue) (job : List (String × JValue))
    (h : validate_job jd = Except.ok job) :
    ∃ fields jid t ob, jd = JValue.obj fields ∧
      jget fields "task" = some (JValue.str t) ∧
      (t = "sprite_placeholder" ∨ t = "tileset_placeholder") ∧
      job = [("job_id", JValue.str jid), ("task", JValue.str t),
             ("output_basename", JValue.str ob),
             ("params", (jget fields "params").getD (JValue.obj []))] := by
  unfold validate_job at h
  repeat' split at h
  all_goals try exact Except.noConfusion h
  rename_i fields xjid jid heqjid hne hpat xtask t heqt hmem xob ob heqob hobne hname
  injection h with hjob
  subst hjob
  refine ⟨fields, jid, t, ob, rfl, heqt, ?_, rfl⟩
  simpa [SUPPORTED_TASKS] using hmem

/-- A job whose `task` field is anything but a string drawn from
`SUPPORTED_TASKS` — an unsupported string, a non-string value, or a
missing field — never passes `validate_job`. -/
theorem validate_job_err_of_unsupported_task (fields : List (String × JValue))
    (h : ∀ t, jget fields "task" = some (JValue.str t) → t ∉ SUPPORTED_TASKS) :
    ∃ e, validate_job (JValue.obj fields) = Except.error e := by
  cases hv : validate_job (JValue.obj fields) with
  | error e => exact ⟨e, rfl⟩
  | ok job =>
      obtain ⟨fields2, jid, t, ob, hfe, htask, hmem, hjob⟩ := validate_job_ok_shape _ _ hv
      injection hfe with hf
      subst hf
      have hmem2 : t ∈ SUPPORTED_TASKS := by
        rcases hmem with h1 | h1 <;> rw [h1] <;> decide
      exact absurd hmem2 (h t htask)

/-- C4: every job spec whose `task` value is outside the supported set —
an unsupported string such as `unknown_task` or `slice_tileset`, a
non-string value, or a missing field — fails during validation, and the
run performs no externally visible write at all: no artifact directory
creation, no file write, no subprocess; the effect trace of `main` is
empty. -/
theorem c4_validation_failure_no_effects (env : Env) (fields : List (String × JValue))
    (h : ∀ t, jget fields "task" = some (JValue.str t) → t ∉ SUPPORTED_TASKS) :
    (main_run env (JValue.obj fields)).fst.isOk = false ∧
    (main_run env (JValue.obj fields)).snd = [] := by
  obtain ⟨e, he⟩ := validate_job_err_of_unsupported_task fields h
  simp [main_run, he, Except.isOk, Except.toBool]

theorem c4_validation_failure_no_effects_witness :
    (main_run testEnv (JValue.obj c4fields)).fst.isOk = false ∧
    (main_run testEnv (JValue.obj c4fields)).snd = [] :=
  c4_validation_failure_no_effects testEnv c4fields
    (by
      intro t ht
      have ht2 : some (JValue.str "unknown_task") = some (JValue.str t) := ht
      injection ht2 with h2
      injection h2 with h3
      rw [← h3]
      decide)

/-- C7: for every validated JobSpec, `build_command` returns the command
variant matching the task, and that command's metadata payload contains
the exact JobSpec under the key `job`; for every task value outside the
known set, it fails with the `Unsupported task:` error. -/
theorem c7_command_dispatch (jd : JValue) (job : List (String × JValue))
    (hv : validate_job jd = Except.ok job) :
    (∃ t c, jget job "task" = some (JValue.str t) ∧
        build_command job = Except.ok c ∧
        jlook (meta_payload c job) "job" = some (JValue.obj job) ∧
        ((t = "sprite_placeholder" ∧ c = Command.sprite_placeholder) ∨
         (t = "tileset_placeholder" ∧ c = Command.tileset_placeholder))) ∧
    (∀ (job2 : List (String × JValue)) (t : String),
        jget job2 "task" = some (JValue.str t) → t ∉ SUPPORTED_TASKS →
        build_command job2 = Except.error ("Unsupported task: " ++ t)) := by
  obtain ⟨fields, jid, t, ob, hjd, htask, hmem, hjob⟩ := validate_job_ok_shape jd job hv
  constructor
  · subst hjob
    rcases hmem with h | h <;> subst h
    · exact ⟨_, _, rfl, rfl, rfl, Or.inl ⟨rfl, rfl⟩⟩
    · exact ⟨_, _, rfl, rfl, rfl, Or.inr ⟨rfl, rfl⟩⟩
  · intro job2 t2 ht2 hn2
    simp only [SUPPORTED_TASKS, List.mem_cons, List.mem_singleton, not_or] at hn2
    unfold build_command
    rw [ht2]
    dsimp only
    rw [if_neg hn2.1, if_neg hn2.2.1]

theorem c7_command_dispatch_witness :
    (∃ t c, jget c6validated "task" = some (JValue.str t) ∧
        build_command c6validated = Except.ok c ∧
        jlook (meta_payload c c6validated) "job" = some (JValue.obj c6validated) ∧
        ((t = "sprite_placeholder" ∧ c = Command.sprite_placeholder) ∨
         (t = "tileset_placeholder" ∧ c = Command.tileset_placeholder))) ∧
    (∀ (job2 : List (String × JValue)) (t : String),
        jget job2 "task" = some (JValue.str t) → t ∉ SUPPORTED_TASKS →
        build_command job2 = Except.error ("Unsupported task: " ++ t)) :=
  c7_command_dispatch c6job c6validated rfl

/-- C10: every accepted input yields a canonical record with exactly the
keys `job_id`, `task`, `output_basename`, `params` (other input keys are
dropped), and the `params` value of the input — of any type, with no
check — is preserved verbatim (defaulting to the empty object). -/
theorem c10_canonical_record_keys (fields job : List (String × JValue))
    (h : validate_job (JValue.obj fields) = Except.ok job) :
    job.map Prod.fst = ["job_id", "task", "output_basename", "params"] ∧
    jget job "params" = some ((jget fields "params").getD (JValue.obj [])) := by
  obtain ⟨fields2, jid, t, ob, hjd, htask, hmem, hjob⟩ := validate_job_ok_shape _ _ h
  injection hjd with hf
  subst hf
  subst hjob
  exact ⟨rfl, rfl⟩

theorem c10_canonical_record_keys_witness :
    ([("job_id", JValue.str "p1"), ("task", JValue.str "tileset_placeholder"),
      ("output_basename", JValue.str "tiles"),
      ("params", JValue.str "not a mapping")].map Prod.fst =
        ["job_id", "task", "output_basename", "params"]) ∧
    jget [("job_id", JValue.str "p1"), ("task", JValue.str "tileset_placeholder"),
      ("output_basename", JValue.str "tiles"),
      ("params", JValue.str "not a mapping")] "params" =
      some ((jget c10fields "params").getD (JValue.obj [])) :=
  c10_canonical_record_keys c10fields _ rfl

/-- C5: whenever the editor is invoked, `run_aseprite` writes the log —
whose second line is the exact space-joined command line, followed by
the labeled stdout/stderr — and returns the editor's exit code
unmodified, before `main` raises anything; in the concrete exit-code-2
scenario the run fails with a message referencing `logs.txt`, and the
trace shows `logs.txt` already written with the literal command line. -/
theorem c5_log_written_and_exit_code (env : Env) (exe script logPath w : String)
    (params : List (String × String)) (h : env.wslpathToWin script = Except.ok w) :
    (run_aseprite env exe script params logPath =
      Except.ok ((env.editor (aseCmd exe w params)).2.2,
        [Effect.runProcess (aseCmd exe w params),
         Effect.writeLog logPath (String.intercalate "\n"
           (log_contents (aseCmd exe w params)
             (env.editor (aseCmd exe w params)).1
             (env.editor (aseCmd exe w params)).2.1))])) ∧
    (∀ (cmd : List String) (out err : String),
      (log_contents cmd out err).get? 1 = some (String.intercalate " " cmd)) ∧
    (main_run c5env c5job).fst =
      Except.error "Aseprite exited with code 2. See logs.txt for details." ∧
    (main_run c5env c5job).snd =
      [Effect.mkdirArtifacts "/repo/artifacts/j5",
       Effect.writeMeta "/repo/artifacts/j5" (meta_payload Command.sprite_placeholder
         [("job_id", JValue.str "j5"), ("task", JValue.str "sprite_placeholder"),
          ("output_basename", JValue.str "out"), ("params", JValue.obj [])]),
       Effect.runProcess c5cmd,
       Effect.writeLog "/repo/artifacts/j5/logs.txt"
         (String.intercalate "\n" (log_contents c5cmd "boom" "fail"))] := by
  refine ⟨?_, fun cmd out err => rfl, rfl, rfl⟩
  unfold run_aseprite
  rw [h]

theorem c5_log_written_and_exit_code_witness :
    (main_run c5env c5job).fst =
      Except.error "Aseprite exited with code 2. See logs.txt for details." :=
  (c5_log_written_and_exit_code testEnv "exe" "script" "log" "script" [] rfl).2.2.1

/-- Every successful `run_aseprite` result carries the exit code of the
editor and exactly the process-invocation and log-write effects. -/
theorem run_aseprite_ok_shape (env : Env) (exe script : String)
    (params : List (String × String)) (logPath : String) (res : Int × List Effect)
    (h : run_aseprite env exe script params logPath = Except.ok res) :
    ∃ w, env.wslpathToWin script = Except.ok w ∧
      res = ((env.editor (aseCmd exe w params)).2.2,
        [Effect.runProcess (aseCmd exe w params),
         Effect.writeLog logPath (String.intercalate "\n" (log_contents (aseCmd exe w params)
           (env.editor (aseCmd exe w params)).1 (env.editor (aseCmd exe w params)).2.1))]) := by
  unfold run_aseprite at h
  cases hw : env.wslpathToWin script with
  | error e => rw [hw] at h; exact Except.noConfusion h
  | ok w =>
      rw [hw] at h
      dsimp only at h
      injection h with h2
      exact ⟨w, rfl, h2.symm⟩

/-- C8 counterexample: in a concrete successful run the trace is
mkdir, `meta.json` write, editor invocation, log write — the metadata
artifact is written at position 1, before the editor invocation at
position 2, so it is not written "only after ProcessRunner has invoked
the external editor". -/
theorem c8_meta_written_before_process : ¬ metaOnlyAfterProcess c8trace := by
  intro hcl
  have h1 : ∃ d p, c8trace.get? 1 = some (Effect.writeMeta d p) := ⟨_, _, rfl⟩
  have h2 : ∃ c, c8trace.get? 2 = some (Effect.runProcess c) := ⟨_, rfl⟩
  obtain ⟨d, p, h1⟩ := h1
  obtain ⟨c, h2⟩ := h2
  exact absurd (hcl 1 2 d p c h1 h2) (by decide)

/-- C8 amended: stages execute in the order JobSpecValidator, then
CommandDispatch, then ArtifactWriter (`meta.json`), then
ExecutableLocator and ProcessRunner (editor invocation followed by the
log write): every run's effect trace is one of the increasing prefixes
of mkdir → meta → process → log, so the metadata artifact is written
before — never after — the external editor is invoked. -/
theorem c8_actual_stage_order (env : Env) (jd : JValue) :
    (main_run env jd).snd.map stageTag ∈
      [([] : List Nat), [0], [0, 1], [0, 1, 2, 3]] := by
  unfold main_run
  dsimp only
  repeat' split
  all_goals try (simp [stageTag]; done)
  all_goals
    rename_i xr res heqrun hcond
    obtain ⟨w, hw, hres⟩ := run_aseprite_ok_shape _ _ _ _ _ res heqrun
    subst hres
    simp [stageTag]

/-- C9 counterexample: for an override with a leading `/`, the code
existence-checks the override itself (before translating at all) and
succeeds, while the claim's algorithm — existence-checking the
translated result — fails: the two resolutions disagree at `c9env`. -/
theorem c9_override_check_divergence :
    find_aseprite_executable c9env = Except.ok ("/opt/aseprite", "C:/opt/aseprite") ∧
    find_aseprite_claimed c9env =
      Except.error "ASEPRITE_EXE not found at /opt/aseprite." ∧
    find_aseprite_executable c9env ≠ find_aseprite_claimed c9env := by
  refine ⟨rfl, rfl, ?_⟩
  intro hcontra
  have h1 : (find_aseprite_executable c9env).isOk = true := rfl
  rw [hcontra] at h1
  have h2 : (find_aseprite_claimed c9env).isOk = false := rfl
  rw [h2] at h1
  exact Bool.noConfusion h1

/-- C9 amended: the code's resolution coincides, on every environment,
with the amended order: environment override first (existence-checking
its WSL form, not the translated result, and failing with a hard error
naming the configured path), then the well-known locations probed after
conversion, then the discovery error. -/
theorem c9_resolution_order_amended (env : Env) :
    find_aseprite_executable env = find_aseprite_amended env := by
  unfold find_aseprite_executable find_aseprite_amended overrideWslForm
  cases henv : env.aseprite_env with
  | none => rfl
  | some p =>
      dsimp only
      by_cases hp : startsWithSlash p = true
      · simp only [hp, if_true]
        by_cases hex : env.fsExists p
        · simp only [hex, if_true]
          cases hw : env.wslpathToWin p <;> simp [hw, Except.map]
        · simp [hex]
      · simp only [Bool.not_eq_true] at hp
        simp only [hp, Bool.false_eq_true, if_false]
